import Mathlib

/-!
Shallow embedding of the deterministic MVR hiring-policy engine
(`normalize`, `count_uninspected_vehicle`, `decide_policy` in `main.py`).

Python `dict.get` on possibly-absent keys is modelled with `Option`:
an absent or `null` field is `none`.  The Python checks `x is True`
become `x == some true`.  Character-level operations (`re.sub(r"\s+", " ", ·)`,
`.strip()`, `.lower()`) are modelled over ASCII, which covers the whole
flag/phrase vocabulary of the program.
-/

namespace MVR

/-- The two decision values emitted by the engine. -/
inductive Decision where
  | ACCEPT
  | REJECT
deriving DecidableEq, Repr

/-- The result dictionary of `decide_policy`: decision, reason string, flags list. -/
structure DecisionResult where
  decision : Decision
  reason : String
  flags : List String
deriving DecidableEq, Repr

/-- One entry of the `violations` array; every field may be absent/null. -/
structure ViolationEntry where
  incident_date : Option String
  conviction_date : Option String
  description : Option String
deriving DecidableEq, Repr

/-- The `major_indicators` mapping: a fixed closed set of ten boolean keys,
each possibly absent. -/
structure MajorIndicators where
  speeding_over_15 : Option Bool
  tailgating_following_too_closely : Option Bool
  texting_handheld_phone : Option Bool
  reckless_careless : Option Bool
  dui_dwi_alcohol_drugs : Option Bool
  hit_and_run : Option Bool
  felony_conviction : Option Bool
  refused_test : Option Bool
  failed_dot_drug_test_no_sap : Option Bool
  license_suspended_not_reinstated : Option Bool
deriving DecidableEq, Repr

/-- The empty `major_indicators` dict (`extracted.get("major_indicators", {}) or {}`
when the key is absent or null): every lookup yields `none`. -/
def emptyMI : MajorIndicators :=
  ⟨none, none, none, none, none, none, none, none, none, none⟩

/-- The extracted fact record consumed by `decide_policy`; every field may be
absent/null. -/
structure FactRecord where
  unreadable_pdf : Option Bool
  license_status : Option String
  cdl_class : Option String
  missing_cdl_endorsements : Option Bool
  medical_cert_expired : Option Bool
  accident_count : Option Int
  violations : Option (List ViolationEntry)
  major_indicators : Option MajorIndicators
deriving DecidableEq, Repr

/-- ASCII whitespace, the characters matched by the regex class `\s`
(space, tab, newline, carriage return, form feed, vertical tab). -/
def isSpaceChar (c : Char) : Bool :=
  c == ' ' || c == '\t' || c == '\n' || c == '\r' ||
    c == Char.ofNat 12 || c == Char.ofNat 11

/-- `re.sub(r"\s+", " ", s)` over a character list: every maximal run of
whitespace becomes a single space.  The boolean records whether the previous
character was whitespace. -/
def collapseGo : List Char → Bool → List Char
  | [], _ => []
  | c :: rest, prevSpace =>
    if isSpaceChar c then
      if prevSpace then collapseGo rest true
      else ' ' :: collapseGo rest true
    else c :: collapseGo rest false

/-- `.strip()` after whitespace collapsing: drop leading and trailing spaces. -/
def stripSpaces (l : List Char) : List Char :=
  ((l.dropWhile (· == ' ')).reverse.dropWhile (· == ' ')).reverse

/-- `normalize(s)` from `main.py`: collapse whitespace runs to one space,
trim, lower-case. -/
def normalize (s : String) : String :=
  String.mk ((stripSpaces (collapseGo s.data false)).map Char.toLower)

/-- Python substring containment `needle in hay` over character lists. -/
def containsSub (hay needle : List Char) : Bool :=
  (List.range (hay.length + 1)).any fun i =>
    (hay.drop i).take needle.length == needle

/-- The per-entry match of `count_uninspected_vehicle`: normalize
`v.get("description", "")` and test the two substring patterns. -/
def matchDesc (d : Option String) : Bool :=
  let desc := normalize (d.getD "")
  containsSub desc.data "operate uninspected vehicle".data ||
    containsSub desc.data "uninspected vehicle".data

/-- `count_uninspected_vehicle(violations)`: the number of entries of
`violations or []` whose normalized description contains the target phrase. -/
def count_uninspected_vehicle (violations : Option (List ViolationEntry)) : Nat :=
  ((violations.getD []).filter fun v => matchDesc v.description).length

/-- `int(extracted.get("accident_count") or 0)`: absent/null gives `0`
(and Python's falsy `0 or 0` is also `0`); any other integer is unchanged. -/
def accidentCountUsed (r : FactRecord) : Int :=
  r.accident_count.getD 0

/-- One conditional append site of `decide_policy`: if the condition holds,
one (flag, reason-clause) pair is accumulated. -/
def condPair (c : Bool) (flag clause : String) : List (String × String) :=
  if c then [(flag, clause)] else []

/-- The reason clause emitted for a major violation indicator
(`f"Major violation indicator: {flag}."`). -/
def majorReason (flag : String) : String :=
  "Major violation indicator: " ++ flag ++ "."

/-- The (flag, reason-clause) pairs accumulated by the non-short-circuit part of
`decide_policy`, in evaluation order.  The Python code pushes flags and reasons
in lockstep; the loop over `major_map` is unrolled into its nine iterations. -/
def triggeredPairs (r : FactRecord) : List (String × String) :=
  let mi := r.major_indicators.getD emptyMI
  let accident_count := accidentCountUsed r
  let uninspected_count := count_uninspected_vehicle r.violations
  condPair (r.medical_cert_expired == some true)
    "EXPIRED_MEDICAL" "Expired medical certificate." ++
  condPair (r.missing_cdl_endorsements == some true)
    "MISSING_ENDORSEMENTS" "Missing required CDL endorsements." ++
  condPair (mi.license_suspended_not_reinstated == some true)
    "LICENSE_SUSPENDED" "License suspended (not reinstated)." ++
  condPair (mi.speeding_over_15 == some true)
    "SPEEDING_OVER_15" (majorReason "SPEEDING_OVER_15") ++
  condPair (mi.tailgating_following_too_closely == some true)
    "FOLLOWING_TOO_CLOSELY" (majorReason "FOLLOWING_TOO_CLOSELY") ++
  condPair (mi.texting_handheld_phone == some true)
    "TEXTING_HANDHELD_PHONE" (majorReason "TEXTING_HANDHELD_PHONE") ++
  condPair (mi.reckless_careless == some true)
    "RECKLESS_CARELESS" (majorReason "RECKLESS_CARELESS") ++
  condPair (mi.dui_dwi_alcohol_drugs == some true)
    "DUI_DWI" (majorReason "DUI_DWI") ++
  condPair (mi.hit_and_run == some true)
    "HIT_AND_RUN" (majorReason "HIT_AND_RUN") ++
  condPair (mi.felony_conviction == some true)
    "FELONY_CONVICTION" (majorReason "FELONY_CONVICTION") ++
  condPair (mi.refused_test == some true)
    "REFUSED_TEST" (majorReason "REFUSED_TEST") ++
  condPair (mi.failed_dot_drug_test_no_sap == some true)
    "FAILED_DOT_DRUG_TEST_NO_SAP" (majorReason "FAILED_DOT_DRUG_TEST_NO_SAP") ++
  condPair (decide (2 ≤ accident_count))
    "ACCIDENTS_2_PLUS" ("Accident count is " ++ toString accident_count ++ " (>=2).") ++
  condPair (decide (2 ≤ uninspected_count))
    "UNINSPECTED_VEHICLE_2_PLUS"
    ("Operate uninspected vehicle count is " ++ toString uninspected_count ++ " (>=2).")

/-- Keep-first deduplication, the element content of Python's `set(flags)`
(the subsequent sort makes the iteration order irrelevant). -/
def dedupGo (seen : List String) : List String → List String
  | [] => []
  | x :: xs => if x ∈ seen then dedupGo seen xs else x :: dedupGo (x :: seen) xs

/-- `sorted(list(set(flags)))`: deduplicate, then sort by code points
(the lexicographic `String` order). -/
def sortedDedup (l : List String) : List String :=
  (dedupGo [] l).insertionSort (· ≤ ·)

/-- `decide_policy(extracted)` from `main.py`.  The unreadable-PDF check
short-circuits; otherwise the accumulated (flag, reason) pairs decide the
outcome. -/
def decide_policy (extracted : FactRecord) : DecisionResult :=
  if extracted.unreadable_pdf == some true then
    { decision := .REJECT
      reason := "PDF unreadable / insufficient data."
      flags := ["INSUFFICIENT_DATA"] }
  else
    let pairs := triggeredPairs extracted
    if pairs.isEmpty then
      { decision := .ACCEPT
        reason := "No reject triggers found under current policy."
        flags := [] }
    else
      { decision := .REJECT
        reason := String.intercalate " | " (pairs.map Prod.snd)
        flags := sortedDedup (pairs.map Prod.fst) }

/-- Setting the `i`-th major indicator (in `major_map` order, with
`license_suspended_not_reinstated` as index 9) to `true`; indices past the
vocabulary leave the mapping unchanged. -/
def setIndicatorTrue : Nat → MajorIndicators → MajorIndicators
  | 0, m => { m with speeding_over_15 := some true }
  | 1, m => { m with tailgating_following_too_closely := some true }
  | 2, m => { m with texting_handheld_phone := some true }
  | 3, m => { m with reckless_careless := some true }
  | 4, m => { m with dui_dwi_alcohol_drugs := some true }
  | 5, m => { m with hit_and_run := some true }
  | 6, m => { m with felony_conviction := some true }
  | 7, m => { m with refused_test := some true }
  | 8, m => { m with failed_dot_drug_test_no_sap := some true }
  | 9, m => { m with license_suspended_not_reinstated := some true }
  | _ + 10, m => m

/-- The fact record with the `i`-th major indicator forced to true and every
other field left unchanged. -/
def flipIndicator (r : FactRecord) (i : Nat) : FactRecord :=
  { r with major_indicators := some (setIndicatorTrue i (r.major_indicators.getD emptyMI)) }

/-- The major-indicator mapping with every key explicitly false. -/
def allFalseMI : MajorIndicators :=
  ⟨some false, some false, some false, some false, some false,
   some false, some false, some false, some false, some false⟩

/-- The major-indicator mapping with every key explicitly true. -/
def allTrueMI : MajorIndicators :=
  ⟨some true, some true, some true, some true, some true,
   some true, some true, some true, some true, some true⟩

/-- The default coercion `decide_policy` applies to possibly-absent fields:
absent boolean → false, absent count → 0, absent sequence → empty, absent
indicator mapping → all-absent mapping with each key then defaulting to
false. -/
def coerceMI (m : MajorIndicators) : MajorIndicators :=
  ⟨some (m.speeding_over_15.getD false),
   some (m.tailgating_following_too_closely.getD false),
   some (m.texting_handheld_phone.getD false),
   some (m.reckless_careless.getD false),
   some (m.dui_dwi_alcohol_drugs.getD false),
   some (m.hit_and_run.getD false),
   some (m.felony_conviction.getD false),
   some (m.refused_test.getD false),
   some (m.failed_dot_drug_test_no_sap.getD false),
   some (m.license_suspended_not_reinstated.getD false)⟩

/-- A fact record with every optional field replaced by its explicit default
(the coercion the engine performs on absent data). -/
def coerceDefaults (r : FactRecord) : FactRecord :=
  { r with
    unreadable_pdf := some (r.unreadable_pdf.getD false)
    missing_cdl_endorsements := some (r.missing_cdl_endorsements.getD false)
    medical_cert_expired := some (r.medical_cert_expired.getD false)
    accident_count := some (r.accident_count.getD 0)
    violations := some (r.violations.getD [])
    major_indicators := some (coerceMI (r.major_indicators.getD emptyMI)) }

/-- A fully clean record: readable, every boolean false, no accidents,
no violations. -/
def cleanRecord : FactRecord :=
  ⟨some false, some "VALID", some "A", some false, some false, some 0,
   some [], some allFalseMI⟩

/-- An unreadable record whose remaining fields would all trigger rules. -/
def unreadableRecord : FactRecord :=
  ⟨some true, some "SUSPENDED", none, some true, some true, some 7,
   some [⟨some "2024-01-01", none, some "uninspected vehicle"⟩,
         ⟨none, none, some "Operate Uninspected Vehicle"⟩],
   some allTrueMI⟩

/-- A readable record with two accidents and nothing else. -/
def twoAccidentRecord : FactRecord :=
  ⟨some false, some "VALID", some "B", some false, some false, some 2,
   some [], some allFalseMI⟩

/-- A readable record whose accident count is the (schema-violating)
negative integer `-3`. -/
def negAccidentRecord : FactRecord :=
  ⟨some false, some "VALID", some "A", some false, some false, some (-3),
   some [], some allFalseMI⟩

/-- A readable record with two differently-phrased uninspected-vehicle
violations and one description-less entry. -/
def uninspectedRecord : FactRecord :=
  ⟨some false, some "VALID", some "A", some false, some false, some 0,
   some [⟨some "2023-05-01", none, some "Operate Uninspected Vehicle"⟩,
         ⟨none, some "2023-07-09", some "UNINSPECTED VEHICLE - CDL"⟩,
         ⟨none, none, none⟩],
   some allFalseMI⟩

/-- `uninspectedRecord` with permuted violations, different license status,
CDL class and violation dates. -/
def uninspectedRecordShuffled : FactRecord :=
  ⟨some false, none, some "C", some false, some false, some 0,
   some [⟨none, none, none⟩,
         ⟨some "1999-12-31", some "2000-01-01", some "UNINSPECTED VEHICLE - CDL"⟩,
         ⟨none, none, some "Operate Uninspected Vehicle"⟩],
   some allFalseMI⟩

/-! ### Helper lemmas about the accumulation and aggregation machinery -/

theorem mem_condPair {x : String × String} {c : Bool} {a b : String} :
    x ∈ condPair c a b ↔ (c = true ∧ x = (a, b)) := by
  cases c <;> simp [condPair]

theorem map_fst_condPair (c : Bool) (a b : String) :
    (condPair c a b).map Prod.fst = if c then [a] else [] := by
  cases c <;> simp [condPair]

theorem mem_map_fst_condPair {f : String} {c : Bool} {a b : String} :
    f ∈ (condPair c a b).map Prod.fst ↔ (c = true ∧ f = a) := by
  cases c <;> simp [condPair]

theorem mem_map_snd_condPair {s : String} {c : Bool} {a b : String} :
    s ∈ (condPair c a b).map Prod.snd ↔ (c = true ∧ s = b) := by
  cases c <;> simp [condPair]

theorem mem_dedupGo {y : String} :
    ∀ (l seen : List String), y ∈ dedupGo seen l ↔ (y ∈ l ∧ y ∉ seen)
  | [], seen => by simp [dedupGo]
  | x :: xs, seen => by
    by_cases hx : x ∈ seen
    · simp only [dedupGo, if_pos hx, mem_dedupGo xs seen, List.mem_cons]
      constructor
      · rintro ⟨h1, h2⟩; exact ⟨Or.inr h1, h2⟩
      · rintro ⟨h1 | h1, h2⟩
        · exact absurd (h1 ▸ hx) h2
        · exact ⟨h1, h2⟩
    · simp only [dedupGo, if_neg hx, List.mem_cons, mem_dedupGo xs (x :: seen)]
      constructor
      · rintro (rfl | ⟨h1, h2⟩)
        · exact ⟨Or.inl rfl, hx⟩
        · exact ⟨Or.inr h1, fun hy => h2 (Or.inr hy)⟩
      · rintro ⟨rfl | h1, h2⟩
        · exact Or.inl rfl
        · by_cases hyx : y = x
          · exact Or.inl hyx
          · exact Or.inr ⟨h1, by simp [hyx, h2]⟩

theorem nodup_dedupGo : ∀ (l seen : List String), (dedupGo seen l).Nodup
  | [], _ => List.nodup_nil
  | x :: xs, seen => by
    by_cases hx : x ∈ seen
    · simpa [dedupGo, if_pos hx] using nodup_dedupGo xs seen
    · simp only [dedupGo, if_neg hx]
      refine List.nodup_cons.mpr ⟨fun hmem => ?_, nodup_dedupGo xs (x :: seen)⟩
      exact ((mem_dedupGo xs (x :: seen)).mp hmem).2 (List.mem_cons_self x seen)

theorem dedupGo_nil_iff : ∀ (l : List String), dedupGo [] l = [] ↔ l = []
  | [] => by simp [dedupGo]
  | x :: xs => by simp [dedupGo]

theorem mem_sortedDedup {y : String} {l : List String} :
    y ∈ sortedDedup l ↔ y ∈ l := by
  unfold sortedDedup
  rw [(List.perm_insertionSort _ _).mem_iff, mem_dedupGo]
  simp

theorem nodup_sortedDedup (l : List String) : (sortedDedup l).Nodup :=
  (List.perm_insertionSort _ _).nodup_iff.mpr (nodup_dedupGo l [])

theorem sorted_sortedDedup (l : List String) :
    (sortedDedup l).Sorted (· ≤ ·) :=
  List.sorted_insertionSort _ _

theorem sortedDedup_eq_nil_iff {l : List String} :
    sortedDedup l = [] ↔ l = [] := by
  unfold sortedDedup
  constructor
  · intro h
    have := List.perm_insertionSort (· ≤ ·) (dedupGo [] l)
    rw [h] at this
    exact (dedupGo_nil_iff l).mp this.symm.eq_nil
  · intro h; subst h; simp [dedupGo]

/-! ### Characterizations of `decide_policy` off the short-circuit path -/

theorem decide_policy_unreadable {r : FactRecord} (h : r.unreadable_pdf = some true) :
    decide_policy r =
      { decision := .REJECT
        reason := "PDF unreadable / insufficient data."
        flags := ["INSUFFICIENT_DATA"] } := by
  simp [decide_policy, h]

theorem decide_policy_readable_accept {r : FactRecord}
    (h : r.unreadable_pdf ≠ some true) (hp : triggeredPairs r = []) :
    decide_policy r =
      { decision := .ACCEPT
        reason := "No reject triggers found under current policy."
        flags := [] } := by
  simp [decide_policy, h, hp]

theorem decide_policy_readable_reject {r : FactRecord}
    (h : r.unreadable_pdf ≠ some true) (hp : triggeredPairs r ≠ []) :
    decide_policy r =
      { decision := .REJECT
        reason := String.intercalate " | " ((triggeredPairs r).map Prod.snd)
        flags := sortedDedup ((triggeredPairs r).map Prod.fst) } := by
  simp [decide_policy, h, hp]

theorem decision_accept_iff {r : FactRecord} (h : r.unreadable_pdf ≠ some true) :
    (decide_policy r).decision = .ACCEPT ↔ triggeredPairs r = [] := by
  by_cases hp : triggeredPairs r = []
  · simp [decide_policy_readable_accept h hp, hp]
  · simp [decide_policy_readable_reject h hp, hp]

theorem decision_reject_iff {r : FactRecord} (h : r.unreadable_pdf ≠ some true) :
    (decide_policy r).decision = .REJECT ↔ triggeredPairs r ≠ [] := by
  by_cases hp : triggeredPairs r = []
  · simp [decide_policy_readable_accept h hp, hp]
  · simp [decide_policy_readable_reject h hp, hp]

theorem mem_flags_iff {r : FactRecord} (h : r.unreadable_pdf ≠ some true)
    {f : String} :
    f ∈ (decide_policy r).flags ↔ f ∈ (triggeredPairs r).map Prod.fst := by
  by_cases hp : triggeredPairs r = []
  · simp [decide_policy_readable_accept h hp, hp]
  · simp [decide_policy_readable_reject h hp, mem_sortedDedup]

/-- Explicit characterization of the accumulated (flag, clause) pairs:
one disjunct per append site of `decide_policy`. -/
theorem mem_triggeredPairs_iff (r : FactRecord) (x : String × String) :
    x ∈ triggeredPairs r ↔
      (r.medical_cert_expired = some true ∧
        x = ("EXPIRED_MEDICAL", "Expired medical certificate.")) ∨
      (r.missing_cdl_endorsements = some true ∧
        x = ("MISSING_ENDORSEMENTS", "Missing required CDL endorsements.")) ∨
      ((r.major_indicators.getD emptyMI).license_suspended_not_reinstated = some true ∧
        x = ("LICENSE_SUSPENDED", "License suspended (not reinstated).")) ∨
      ((r.major_indicators.getD emptyMI).speeding_over_15 = some true ∧
        x = ("SPEEDING_OVER_15", majorReason "SPEEDING_OVER_15")) ∨
      ((r.major_indicators.getD emptyMI).tailgating_following_too_closely = some true ∧
        x = ("FOLLOWING_TOO_CLOSELY", majorReason "FOLLOWING_TOO_CLOSELY")) ∨
      ((r.major_indicators.getD emptyMI).texting_handheld_phone = some true ∧
        x = ("TEXTING_HANDHELD_PHONE", majorReason "TEXTING_HANDHELD_PHONE")) ∨
      ((r.major_indicators.getD emptyMI).reckless_careless = some true ∧
        x = ("RECKLESS_CARELESS", majorReason "RECKLESS_CARELESS")) ∨
      ((r.major_indicators.getD emptyMI).dui_dwi_alcohol_drugs = some true ∧
        x = ("DUI_DWI", majorReason "DUI_DWI")) ∨
      ((r.major_indicators.getD emptyMI).hit_and_run = some true ∧
        x = ("HIT_AND_RUN", majorReason "HIT_AND_RUN")) ∨
      ((r.major_indicators.getD emptyMI).felony_conviction = some true ∧
        x = ("FELONY_CONVICTION", majorReason "FELONY_CONVICTION")) ∨
      ((r.major_indicators.getD emptyMI).refused_test = some true ∧
        x = ("REFUSED_TEST", majorReason "REFUSED_TEST")) ∨
      ((r.major_indicators.getD emptyMI).failed_dot_drug_test_no_sap = some true ∧
        x = ("FAILED_DOT_DRUG_TEST_NO_SAP", majorReason "FAILED_DOT_DRUG_TEST_NO_SAP")) ∨
      (2 ≤ accidentCountUsed r ∧
        x = ("ACCIDENTS_2_PLUS",
          "Accident count is " ++ toString (accidentCountUsed r) ++ " (>=2).")) ∨
      (2 ≤ count_uninspected_vehicle r.violations ∧
        x = ("UNINSPECTED_VEHICLE_2_PLUS",
          "Operate uninspected vehicle count is " ++
            toString (count_uninspected_vehicle r.violations) ++ " (>=2).")) := by
  simp only [triggeredPairs, List.mem_append, mem_condPair, beq_iff_eq,
    decide_eq_true_eq, or_assoc]

/-- The same characterization for the emitted flag codes. -/
theorem mem_map_fst_triggeredPairs_iff (r : FactRecord) (f : String) :
    f ∈ (triggeredPairs r).map Prod.fst ↔
      (r.medical_cert_expired = some true ∧ f = "EXPIRED_MEDICAL") ∨
      (r.missing_cdl_endorsements = some true ∧ f = "MISSING_ENDORSEMENTS") ∨
      ((r.major_indicators.getD emptyMI).license_suspended_not_reinstated = some true ∧
        f = "LICENSE_SUSPENDED") ∨
      ((r.major_indicators.getD emptyMI).speeding_over_15 = some true ∧
        f = "SPEEDING_OVER_15") ∨
      ((r.major_indicators.getD emptyMI).tailgating_following_too_closely = some true ∧
        f = "FOLLOWING_TOO_CLOSELY") ∨
      ((r.major_indicators.getD emptyMI).texting_handheld_phone = some true ∧
        f = "TEXTING_HANDHELD_PHONE") ∨
      ((r.major_indicators.getD emptyMI).reckless_careless = some true ∧
        f = "RECKLESS_CARELESS") ∨
      ((r.major_indicators.getD emptyMI).dui_dwi_alcohol_drugs = some true ∧
        f = "DUI_DWI") ∨
      ((r.major_indicators.getD emptyMI).hit_and_run = some true ∧
        f = "HIT_AND_RUN") ∨
      ((r.major_indicators.getD emptyMI).felony_conviction = some true ∧
        f = "FELONY_CONVICTION") ∨
      ((r.major_indicators.getD emptyMI).refused_test = some true ∧
        f = "REFUSED_TEST") ∨
      ((r.major_indicators.getD emptyMI).failed_dot_drug_test_no_sap = some true ∧
        f = "FAILED_DOT_DRUG_TEST_NO_SAP") ∨
      (2 ≤ accidentCountUsed r ∧ f = "ACCIDENTS_2_PLUS") ∨
      (2 ≤ count_uninspected_vehicle r.violations ∧
        f = "UNINSPECTED_VEHICLE_2_PLUS") := by
  simp only [triggeredPairs, List.map_append, List.mem_append,
    mem_map_fst_condPair, beq_iff_eq, decide_eq_true_eq, or_assoc]

/-! ### Claim theorems -/

/-- C1: whenever `unreadable_pdf` is true, `decide_policy` short-circuits to
exactly `REJECT` with flags `["INSUFFICIENT_DATA"]` and the fixed reason text,
regardless of every other field; no other rule contributes. -/
theorem C1_unreadable_short_circuit (r : FactRecord)
    (h : r.unreadable_pdf = some true) :
    decide_policy r =
      { decision := .REJECT
        reason := "PDF unreadable / insufficient data."
        flags := ["INSUFFICIENT_DATA"] } :=
  decide_policy_unreadable h

/-- Witness for C1 at a concrete unreadable record whose other fields would
all trigger rules. -/
theorem C1_witness :
    decide_policy unreadableRecord =
      { decision := .REJECT
        reason := "PDF unreadable / insufficient data."
        flags := ["INSUFFICIENT_DATA"] } :=
  C1_unreadable_short_circuit unreadableRecord rfl

/-- C2: off the short-circuit path, flags are empty exactly when the decision
is ACCEPT; every flag comes from a triggered (flag, clause) pair whose clause
is among the joined reason clauses; and on REJECT the reason is the
evaluation-ordered " | "-join of all triggered clauses while the flags are
the deduplicated (no-duplicate), sorted list of all triggered flag codes. -/
theorem C2_aggregation_invariants (r : FactRecord)
    (h : r.unreadable_pdf ≠ some true) :
    ((decide_policy r).flags = [] ↔ (decide_policy r).decision = .ACCEPT) ∧
    (∀ f ∈ (decide_policy r).flags, ∃ p ∈ triggeredPairs r,
        p.1 = f ∧ p.2 ∈ (triggeredPairs r).map Prod.snd) ∧
    ((decide_policy r).decision = .REJECT →
      (decide_policy r).reason =
        String.intercalate " | " ((triggeredPairs r).map Prod.snd) ∧
      (decide_policy r).flags = sortedDedup ((triggeredPairs r).map Prod.fst) ∧
      (decide_policy r).flags.Nodup ∧
      (decide_policy r).flags.Sorted (· ≤ ·) ∧
      ∀ f, f ∈ (decide_policy r).flags ↔ f ∈ (triggeredPairs r).map Prod.fst) := by
  by_cases hp : triggeredPairs r = []
  · rw [decide_policy_readable_accept h hp]
    refine ⟨by simp, by simp, ?_⟩
    intro hd
    simp at hd
  · have hdec : (decide_policy r).decision = .REJECT := by
      rw [decide_policy_readable_reject h hp]
    have hreason : (decide_policy r).reason =
        String.intercalate " | " ((triggeredPairs r).map Prod.snd) := by
      rw [decide_policy_readable_reject h hp]
    have hflags : (decide_policy r).flags =
        sortedDedup ((triggeredPairs r).map Prod.fst) := by
      rw [decide_policy_readable_reject h hp]
    refine ⟨?_, ?_, fun _ => ⟨hreason, hflags, ?_, ?_, ?_⟩⟩
    · rw [hflags, hdec]
      simp [sortedDedup_eq_nil_iff, hp]
    · intro f hf
      rw [hflags, mem_sortedDedup] at hf
      obtain ⟨p, hmem, hfst⟩ := List.mem_map.mp hf
      exact ⟨p, hmem, hfst, List.mem_map_of_mem _ hmem⟩
    · rw [hflags]; exact nodup_sortedDedup _
    · rw [hflags]; exact sorted_sortedDedup _
    · intro f; rw [hflags]; exact mem_sortedDedup

/-- Witness for C2 at the concrete two-accident record. -/
theorem C2_witness :
    ((decide_policy twoAccidentRecord).flags = [] ↔
      (decide_policy twoAccidentRecord).decision = .ACCEPT) ∧
    (∀ f ∈ (decide_policy twoAccidentRecord).flags,
      ∃ p ∈ triggeredPairs twoAccidentRecord,
        p.1 = f ∧ p.2 ∈ (triggeredPairs twoAccidentRecord).map Prod.snd) ∧
    ((decide_policy twoAccidentRecord).decision = .REJECT →
      (decide_policy twoAccidentRecord).reason =
        String.intercalate " | "
          ((triggeredPairs twoAccidentRecord).map Prod.snd) ∧
      (decide_policy twoAccidentRecord).flags =
        sortedDedup ((triggeredPairs twoAccidentRecord).map Prod.fst) ∧
      (decide_policy twoAccidentRecord).flags.Nodup ∧
      (decide_policy twoAccidentRecord).flags.Sorted (· ≤ ·) ∧
      ∀ f, f ∈ (decide_policy twoAccidentRecord).flags ↔
        f ∈ (triggeredPairs twoAccidentRecord).map Prod.fst) :=
  C2_aggregation_invariants twoAccidentRecord (by decide)

/-- C3 counterexample: on the clean record the engine accepts, but the reason
text is `"No reject triggers found under current policy."` (capitalized, with
a final period), not the claim's quoted
`"no reject triggers found under current policy"`. -/
theorem C3_counterexample :
    decide_policy cleanRecord ≠
      { decision := .ACCEPT
        reason := "no reject triggers found under current policy"
        flags := [] } := by
  decide

/-- C3 (amended): a record with `unreadable_pdf` false, every boolean field
(including all ten major indicators) false, accident count 0 and empty
violations yields `ACCEPT`, empty flags, and the fixed reason text
`"No reject triggers found under current policy."`. -/
theorem C3_clean_record_accept (r : FactRecord)
    (h0 : r.unreadable_pdf = some false)
    (h1 : r.medical_cert_expired = some false)
    (h2 : r.missing_cdl_endorsements = some false)
    (h3 : r.major_indicators = some allFalseMI)
    (h4 : r.accident_count = some 0)
    (h5 : r.violations = some []) :
    decide_policy r =
      { decision := .ACCEPT
        reason := "No reject triggers found under current policy."
        flags := [] } := by
  have hp : triggeredPairs r = [] := by
    simp [triggeredPairs, condPair, accidentCountUsed, count_uninspected_vehicle,
      h1, h2, h3, h4, h5, allFalseMI]
  exact decide_policy_readable_accept (by simp [h0]) hp

/-- Witness for the amended C3 at the concrete clean record. -/
theorem C3_witness :
    decide_policy cleanRecord =
      { decision := .ACCEPT
        reason := "No reject triggers found under current policy."
        flags := [] } :=
  C3_clean_record_accept cleanRecord rfl rfl rfl rfl rfl rfl

/-- C4: off the short-circuit path, an accident count of 1 never produces the
`ACCIDENTS_2_PLUS` flag, while any accident count `n ≥ 2` produces it exactly
once, together with a reason clause naming the actual count among the joined
clauses of the reason. -/
theorem C4_accident_threshold (r : FactRecord)
    (h : r.unreadable_pdf ≠ some true) :
    (r.accident_count = some 1 →
      "ACCIDENTS_2_PLUS" ∉ (decide_policy r).flags) ∧
    (∀ n : Int, r.accident_count = some n → 2 ≤ n →
      (decide_policy r).flags.count "ACCIDENTS_2_PLUS" = 1 ∧
      ("Accident count is " ++ toString n ++ " (>=2).") ∈
        (triggeredPairs r).map Prod.snd ∧
      (decide_policy r).reason =
        String.intercalate " | " ((triggeredPairs r).map Prod.snd)) := by
  constructor
  · intro hc hmem
    rw [mem_flags_iff h, mem_map_fst_triggeredPairs_iff] at hmem
    simp [accidentCountUsed, hc] at hmem
  · intro n hc hn
    have hacc : accidentCountUsed r = n := by simp [accidentCountUsed, hc]
    have hmemflag : "ACCIDENTS_2_PLUS" ∈ (triggeredPairs r).map Prod.fst := by
      rw [mem_map_fst_triggeredPairs_iff]
      refine Or.inr (Or.inr (Or.inr (Or.inr (Or.inr (Or.inr (Or.inr (Or.inr
        (Or.inr (Or.inr (Or.inr (Or.inr (Or.inl ⟨?_, rfl⟩))))))))))))
      rw [hacc]; exact hn
    have hp : triggeredPairs r ≠ [] := by
      intro h0
      rw [h0] at hmemflag
      simp at hmemflag
    have hflags : (decide_policy r).flags =
        sortedDedup ((triggeredPairs r).map Prod.fst) := by
      rw [decide_policy_readable_reject h hp]
    refine ⟨?_, ?_, ?_⟩
    · rw [hflags]
      exact List.count_eq_one_of_mem (nodup_sortedDedup _)
        (mem_sortedDedup.mpr hmemflag)
    · have hpair : ("ACCIDENTS_2_PLUS",
          "Accident count is " ++ toString n ++ " (>=2).") ∈ triggeredPairs r := by
        rw [mem_triggeredPairs_iff]
        refine Or.inr (Or.inr (Or.inr (Or.inr (Or.inr (Or.inr (Or.inr (Or.inr
          (Or.inr (Or.inr (Or.inr (Or.inr (Or.inl ⟨?_, ?_⟩))))))))))))
        · rw [hacc]; exact hn
        · rw [hacc]
      exact List.mem_map_of_mem _ hpair
    · rw [decide_policy_readable_reject h hp]

/-- Witness for C4 at the concrete two-accident record. -/
theorem C4_witness :
    (decide_policy twoAccidentRecord).flags.count "ACCIDENTS_2_PLUS" = 1 ∧
    ("Accident count is " ++ toString (2 : Int) ++ " (>=2).") ∈
      (triggeredPairs twoAccidentRecord).map Prod.snd ∧
    (decide_policy twoAccidentRecord).reason =
      String.intercalate " | "
        ((triggeredPairs twoAccidentRecord).map Prod.snd) :=
  (C4_accident_threshold twoAccidentRecord (by decide)).2 2 rfl (by decide)

/-- C5: the uninspected-vehicle rule fires exactly when at least two
violation entries match after normalization; matching is substring
containment over the normalized (whitespace-collapsed, trimmed, lower-cased)
description, a missing description never matches (and never errors, the
matcher being total), and the differently-cased/spaced example phrasings all
match. -/
theorem C5_uninspected_matching (r : FactRecord)
    (h : r.unreadable_pdf ≠ some true) :
    ("UNINSPECTED_VEHICLE_2_PLUS" ∈ (decide_policy r).flags ↔
      2 ≤ count_uninspected_vehicle r.violations) ∧
    count_uninspected_vehicle r.violations =
      ((r.violations.getD []).filter fun v => matchDesc v.description).length ∧
    matchDesc none = false ∧
    matchDesc (some "Operate Uninspected Vehicle") = true ∧
    matchDesc (some "operate   uninspected vehicle") = true ∧
    matchDesc (some "UNINSPECTED VEHICLE - CDL") = true := by
  refine ⟨?_, rfl, by decide, by decide, by decide, by decide⟩
  rw [mem_flags_iff h, mem_map_fst_triggeredPairs_iff]
  simp

/-- Witness for C5 at the record with two differently-phrased matching
violations and one description-less entry. -/
theorem C5_witness :
    ("UNINSPECTED_VEHICLE_2_PLUS" ∈ (decide_policy uninspectedRecord).flags ↔
      2 ≤ count_uninspected_vehicle uninspectedRecord.violations) ∧
    count_uninspected_vehicle uninspectedRecord.violations =
      ((uninspectedRecord.violations.getD []).filter
        fun v => matchDesc v.description).length ∧
    matchDesc none = false ∧
    matchDesc (some "Operate Uninspected Vehicle") = true ∧
    matchDesc (some "operate   uninspected vehicle") = true ∧
    matchDesc (some "UNINSPECTED VEHICLE - CDL") = true :=
  C5_uninspected_matching uninspectedRecord (by decide)

theorem condPair_subset {c c' : Bool} (h : c = true → c' = true)
    (a b : String) : condPair c a b ⊆ condPair c' a b := by
  cases c
  · simp [condPair]
  · rw [h rfl]
    exact fun x hx => hx

theorem condPair_subset_beq {x y : Option Bool}
    (h : x = some true → y = some true) (a b : String) :
    condPair (x == some true) a b ⊆ condPair (y == some true) a b :=
  condPair_subset
    (fun hc => beq_iff_eq.mpr (h (beq_iff_eq.mp hc))) a b

theorem append_subset_append {α : Type} {l1 l2 l1' l2' : List α}
    (h1 : l1 ⊆ l1') (h2 : l2 ⊆ l2') : l1 ++ l2 ⊆ l1' ++ l2' := by
  intro x hx
  rcases List.mem_append.mp hx with hx | hx
  · exact List.mem_append.mpr (Or.inl (h1 hx))
  · exact List.mem_append.mpr (Or.inr (h2 hx))

/-- Setting one major indicator to true leaves every other indicator value
unchanged and every already-true indicator true. -/
theorem setIndicatorTrue_mono (i : Nat) (m : MajorIndicators) :
    (m.speeding_over_15 = some true →
      (setIndicatorTrue i m).speeding_over_15 = some true) ∧
    (m.tailgating_following_too_closely = some true →
      (setIndicatorTrue i m).tailgating_following_too_closely = some true) ∧
    (m.texting_handheld_phone = some true →
      (setIndicatorTrue i m).texting_handheld_phone = some true) ∧
    (m.reckless_careless = some true →
      (setIndicatorTrue i m).reckless_careless = some true) ∧
    (m.dui_dwi_alcohol_drugs = some true →
      (setIndicatorTrue i m).dui_dwi_alcohol_drugs = some true) ∧
    (m.hit_and_run = some true →
      (setIndicatorTrue i m).hit_and_run = some true) ∧
    (m.felony_conviction = some true →
      (setIndicatorTrue i m).felony_conviction = some true) ∧
    (m.refused_test = some true →
      (setIndicatorTrue i m).refused_test = some true) ∧
    (m.failed_dot_drug_test_no_sap = some true →
      (setIndicatorTrue i m).failed_dot_drug_test_no_sap = some true) ∧
    (m.license_suspended_not_reinstated = some true →
      (setIndicatorTrue i m).license_suspended_not_reinstated = some true) :=
  match i with
  | 0 => ⟨fun _ => rfl, fun h => h, fun h => h, fun h => h, fun h => h, fun h => h, fun h => h, fun h => h, fun h => h, fun h => h⟩
  | 1 => ⟨fun h => h, fun _ => rfl, fun h => h, fun h => h, fun h => h, fun h => h, fun h => h, fun h => h, fun h => h, fun h => h⟩
  | 2 => ⟨fun h => h, fun h => h, fun _ => rfl, fun h => h, fun h => h, fun h => h, fun h => h, fun h => h, fun h => h, fun h => h⟩
  | 3 => ⟨fun h => h, fun h => h, fun h => h, fun _ => rfl, fun h => h, fun h => h, fun h => h, fun h => h, fun h => h, fun h => h⟩
  | 4 => ⟨fun h => h, fun h => h, fun h => h, fun h => h, fun _ => rfl, fun h => h, fun h => h, fun h => h, fun h => h, fun h => h⟩
  | 5 => ⟨fun h => h, fun h => h, fun h => h, fun h => h, fun h => h, fun _ => rfl, fun h => h, fun h => h, fun h => h, fun h => h⟩
  | 6 => ⟨fun h => h, fun h => h, fun h => h, fun h => h, fun h => h, fun h => h, fun _ => rfl, fun h => h, fun h => h, fun h => h⟩
  | 7 => ⟨fun h => h, fun h => h, fun h => h, fun h => h, fun h => h, fun h => h, fun h => h, fun _ => rfl, fun h => h, fun h => h⟩
  | 8 => ⟨fun h => h, fun h => h, fun h => h, fun h => h, fun h => h, fun h => h, fun h => h, fun h => h, fun _ => rfl, fun h => h⟩
  | 9 => ⟨fun h => h, fun h => h, fun h => h, fun h => h, fun h => h, fun h => h, fun h => h, fun h => h, fun h => h, fun _ => rfl⟩
  | _ + 10 => ⟨fun h => h, fun h => h, fun h => h, fun h => h, fun h => h, fun h => h, fun h => h, fun h => h, fun h => h, fun h => h⟩

/-- Setting one major indicator to true only ever adds triggered pairs. -/
theorem triggeredPairs_indicator_subset (r : FactRecord) (i : Nat) :
    triggeredPairs r ⊆ triggeredPairs (flipIndicator r i) := by
  have hm := setIndicatorTrue_mono i (r.major_indicators.getD emptyMI)
  simp only [triggeredPairs, accidentCountUsed, flipIndicator, Option.getD_some]
  exact append_subset_append (append_subset_append (append_subset_append (append_subset_append (append_subset_append (append_subset_append (append_subset_append (append_subset_append (append_subset_append (append_subset_append (append_subset_append (append_subset_append (append_subset_append (fun x hx => hx)
    (fun x hx => hx))
    (condPair_subset_beq hm.2.2.2.2.2.2.2.2.2 _ _))
    (condPair_subset_beq hm.1 _ _))
    (condPair_subset_beq hm.2.1 _ _))
    (condPair_subset_beq hm.2.2.1 _ _))
    (condPair_subset_beq hm.2.2.2.1 _ _))
    (condPair_subset_beq hm.2.2.2.2.1 _ _))
    (condPair_subset_beq hm.2.2.2.2.2.1 _ _))
    (condPair_subset_beq hm.2.2.2.2.2.2.1 _ _))
    (condPair_subset_beq hm.2.2.2.2.2.2.2.1 _ _))
    (condPair_subset_beq hm.2.2.2.2.2.2.2.2.1 _ _))
    (fun x hx => hx))
    (fun x hx => hx)

/-- C6: off the short-circuit path, flipping any one of the ten major
indicators to true (holding all other fields fixed) never turns a REJECT into
an ACCEPT and never removes a flag already present. -/
theorem C6_monotonicity (r : FactRecord) (i : Nat)
    (h : r.unreadable_pdf ≠ some true) :
    ((decide_policy r).decision = .REJECT →
      (decide_policy (flipIndicator r i)).decision = .REJECT) ∧
    ∀ f ∈ (decide_policy r).flags,
      f ∈ (decide_policy (flipIndicator r i)).flags := by
  have h' : (flipIndicator r i).unreadable_pdf ≠ some true := h
  have hsub := triggeredPairs_indicator_subset r i
  constructor
  · intro hd
    rw [decision_reject_iff h] at hd
    rw [decision_reject_iff h']
    obtain ⟨x, hx⟩ := List.exists_mem_of_ne_nil _ hd
    exact List.ne_nil_of_mem (hsub hx)
  · intro f hf
    rw [mem_flags_iff h] at hf
    rw [mem_flags_iff h']
    exact List.map_subset _ hsub hf

/-- Witness for C6: flipping the DUI indicator on the two-accident record. -/
theorem C6_witness :
    ((decide_policy twoAccidentRecord).decision = .REJECT →
      (decide_policy (flipIndicator twoAccidentRecord 4)).decision = .REJECT) ∧
    ∀ f ∈ (decide_policy twoAccidentRecord).flags,
      f ∈ (decide_policy (flipIndicator twoAccidentRecord 4)).flags :=
  C6_monotonicity twoAccidentRecord 4 (by decide)

/-- C7: `decide_policy` is a pure function of the fact record — identical
inputs yield identical results (same decision, same reason string, same flags
in the same order); there is no hidden state. -/
theorem C7_deterministic (r1 r2 : FactRecord) (h : r1 = r2) :
    decide_policy r1 = decide_policy r2 := by
  rw [h]

/-- Witness for C7 at a concrete record. -/
theorem C7_witness :
    decide_policy unreadableRecord = decide_policy unreadableRecord :=
  C7_deterministic unreadableRecord unreadableRecord rfl

theorem beq_getD_false (x : Option Bool) :
    (some (x.getD false) == some true) = (x == some true) := by
  cases x with
  | none => rfl
  | some b => rfl

/-- C8: `decide_policy` never fails on absent optional fields — it evaluates
any record as if every absent boolean were false, an absent count were 0, an
absent violations sequence were empty, and an absent indicator mapping had
every key false, and produces a `DecisionResult` either way. -/
theorem C8_default_coercion (r : FactRecord) :
    decide_policy r = decide_policy (coerceDefaults r) := by
  have hpairs : triggeredPairs (coerceDefaults r) = triggeredPairs r := by
    simp only [triggeredPairs, coerceDefaults, coerceMI, accidentCountUsed,
      count_uninspected_vehicle, Option.getD_some, beq_getD_false]
  have hcond : ((coerceDefaults r).unreadable_pdf == some true) =
      (r.unreadable_pdf == some true) := by
    simp only [coerceDefaults]
    exact beq_getD_false _
  unfold decide_policy
  rw [hcond, hpairs]

theorem count_eq_countP (v : Option (List ViolationEntry)) :
    count_uninspected_vehicle v =
      ((v.getD []).map ViolationEntry.description).countP matchDesc := by
  simp only [count_uninspected_vehicle, List.countP_map,
    ← List.countP_eq_length_filter]
  rfl

/-- C10: fact records agreeing on `unreadable_pdf`, `medical_cert_expired`,
`missing_cdl_endorsements`, `major_indicators`, `accident_count` and the
multiset of violation descriptions get identical results: `license_status`,
`cdl_class` and the violations' dates never influence decision, reason or
flags. -/
theorem C10_noninterference (r1 r2 : FactRecord)
    (h0 : r1.unreadable_pdf = r2.unreadable_pdf)
    (h1 : r1.medical_cert_expired = r2.medical_cert_expired)
    (h2 : r1.missing_cdl_endorsements = r2.missing_cdl_endorsements)
    (h3 : r1.major_indicators = r2.major_indicators)
    (h4 : r1.accident_count = r2.accident_count)
    (h5 : ((r1.violations.getD []).map ViolationEntry.description).Perm
          ((r2.violations.getD []).map ViolationEntry.description)) :
    decide_policy r1 = decide_policy r2 := by
  have hcount : count_uninspected_vehicle r1.violations =
      count_uninspected_vehicle r2.violations := by
    rw [count_eq_countP, count_eq_countP]
    exact h5.countP_eq _
  have hacc : accidentCountUsed r1 = accidentCountUsed r2 := by
    unfold accidentCountUsed
    rw [h4]
  have hpairs : triggeredPairs r1 = triggeredPairs r2 := by
    simp only [triggeredPairs, h1, h2, h3, hacc, hcount]
  unfold decide_policy
  rw [h0, hpairs]

/-- Witness for C10: permuted violations, different license status, CDL class
and violation dates. -/
theorem C10_witness :
    decide_policy uninspectedRecord = decide_policy uninspectedRecordShuffled :=
  C10_noninterference uninspectedRecord uninspectedRecordShuffled
    rfl rfl rfl rfl rfl (by decide)

/-- C9 counterexample: for a record whose `accident_count` field is `-3`, the
value the engine uses in the threshold check is `-3`, which is negative —
`int(x or 0)` performs no non-negativity coercion — and the engine proceeds
to accept the record. -/
theorem C9_counterexample :
    accidentCountUsed negAccidentRecord = -3 ∧
      accidentCountUsed negAccidentRecord < 0 ∧
      (decide_policy negAccidentRecord).decision = .ACCEPT := by
  decide

/-- C9 (amended): the engine treats a missing/null `accident_count` as 0 and
uses any present integer unchanged, so the value used in the threshold check
is non-negative whenever the field is absent or non-negative (as the
extraction schema guarantees); no clamping is applied. -/
theorem C9_accident_count_coercion (r : FactRecord)
    (h : ∀ n : Int, r.accident_count = some n → 0 ≤ n) :
    0 ≤ accidentCountUsed r ∧
      (r.accident_count = none → accidentCountUsed r = 0) ∧
      (∀ n : Int, r.accident_count = some n → accidentCountUsed r = n) := by
  refine ⟨?_, ?_, ?_⟩
  · unfold accidentCountUsed
    cases hc : r.accident_count with
    | none => simp
    | some n => simpa using h n hc
  · intro hc; simp [accidentCountUsed, hc]
  · intro n hc; simp [accidentCountUsed, hc]

/-- Witness for the amended C9 at the two-accident record. -/
theorem C9_witness :
    0 ≤ accidentCountUsed twoAccidentRecord ∧
      (twoAccidentRecord.accident_count = none →
        accidentCountUsed twoAccidentRecord = 0) ∧
      (∀ n : Int, twoAccidentRecord.accident_count = some n →
        accidentCountUsed twoAccidentRecord = n) :=
  C9_accident_count_coercion twoAccidentRecord
    (fun n hn => by simp [twoAccidentRecord] at hn; omega)

end MVR
